import Mathlib

/-!
Shallow embedding of the OMEMO encryption core of the qxmpp repository
(src/src/omemo/QXmppOmemoManager_p.cpp, src/src/omemo/QXmppOmemoManager_p.h and
src/src/base/QXmppOmemoDataBase.cpp), restricted to the parts needed to settle
the claims about trust gating, payload authentication, SCE affix validation,
envelope lookup, session building, liveness counters, key-id discipline and the
signed-pre-key renewal sweep.

Byte buffers (QByteArray, QCA SecureArray) are modelled as lists of naturals.
The external collaborators (the ratchet library, the trust manager, the PubSub
client and the symmetric-cipher primitives) are kept abstract, either as
function parameters or as per-device environment records holding the outcome
each collaborator reports; the control flow around them is translated from the
source. The embedded code follows the OMEMO 2 configuration, i.e. the branches
compiled when WITH_OMEMO_V03 is not defined, which are the branches the claims
cite by line range.
-/

namespace QXmppOmemo

/-- Bytes of a QByteArray or QCA SecureArray. -/
abbrev Bytes := List Nat

/-! ## Constants from QXmppOmemoManager_p.h -/

/-- Count of unresponded stanzas sent to a device until encryption for it stops
(QXmppOmemoManager_p.h line 44). -/
def UNRESPONDED_STANZAS_UNTIL_ENCRYPTION_IS_STOPPED : Nat := 106

/-- Count of unresponded stanzas received from a device until a heartbeat
message is sent (QXmppOmemoManager_p.h line 47). -/
def UNRESPONDED_STANZAS_UNTIL_HEARTBEAT_MESSAGE_IS_SENT : Nat := 53

/-- Smallest pre-key id (QXmppOmemoManager_p.h line 58). -/
def PRE_KEY_ID_MIN : Nat := 1

/-- Smallest signed-pre-key id (QXmppOmemoManager_p.h line 59). -/
def SIGNED_PRE_KEY_ID_MIN : Nat := 1

/-- Largest pre-key id, the largest int32 value (QXmppOmemoManager_p.h line 60). -/
def PRE_KEY_ID_MAX : Nat := 2147483647

/-- Largest signed-pre-key id, the largest int32 value (QXmppOmemoManager_p.h line 61). -/
def SIGNED_PRE_KEY_ID_MAX : Nat := 2147483647

/-- Maximum count of devices for whom a stanza is encrypted
(QXmppOmemoManager_p.h line 68). -/
def DEVICES_PER_STANZA_MAX : Nat := 1000

/-- HKDF input key size in bytes (QXmppOmemoManager_p.h line 87). -/
def HKDF_KEY_SIZE : Nat := 32

/-- HKDF output size in bytes (QXmppOmemoManager_p.h line 89). -/
def HKDF_OUTPUT_SIZE : Nat := 60

/-- Truncated length of the payload authentication tag in bytes
(QXmppOmemoManager_p.h line 92). -/
def PAYLOAD_MESSAGE_AUTHENTICATION_CODE_SIZE : Nat := 16

/-- Symmetric payload encryption key size in bytes (QXmppOmemoManager_p.h line 94). -/
def PAYLOAD_KEY_SIZE : Nat := 32

/-- Payload initialization vector size in bytes (QXmppOmemoManager_p.h line 95). -/
def PAYLOAD_INITIALIZATION_VECTOR_SIZE : Nat := 16

/-- Payload authentication key size in bytes (QXmppOmemoManager_p.h line 96). -/
def PAYLOAD_AUTHENTICATION_KEY_SIZE : Nat := 16

/-- Interval after which signed pre-key pairs are renewed, in seconds
(QXmppOmemoManager_p.h line 71, 24h times 7 times 4). -/
def SIGNED_PRE_KEY_RENEWAL_INTERVAL : Nat := 86400 * 7 * 4

/-! ## Byte-buffer helpers mirroring the Qt and QCA operations used -/

/-- QCA SecureArray resize: keep the first n bytes, zero-fill when growing. -/
def resizeBytes (b : Bytes) (n : Nat) : Bytes :=
  b.take n ++ List.replicate (n - b.length) 0

/-- QByteArray right: the last n bytes (the whole array when it is shorter). -/
def rightBytes (b : Bytes) (n : Nat) : Bytes :=
  b.drop (b.length - n)

/-- Reading len bytes starting at byte offset off of a buffer. In the source
this is pointer arithmetic plus copy; a read past the end of the buffer
yields fewer than len bytes here, while in C++ it is an out-of-bounds read. -/
def segmentBytes (b : Bytes) (off len : Nat) : Bytes :=
  (b.drop off).take len

/-! ## End offsets of the HKDF output split (claim C8)

encryptPayload (QXmppOmemoManager_p.cpp lines 1393-1435) and decryptPayload
(lines 2028-2075) derive HKDF_OUTPUT_SIZE bytes and copy three segments out of
them: the encryption key from offset 0, the authentication key from offset
PAYLOAD_KEY_SIZE, and the initialization vector from offset
PAYLOAD_KEY_SIZE + PAYLOAD_AUTHENTICATION_KEY_SIZE. -/

/-- One-past-the-end offset of the encryption-key read of the HKDF output. -/
def encryptionKeySegmentEnd : Nat := PAYLOAD_KEY_SIZE

/-- One-past-the-end offset of the authentication-key read of the HKDF output
(source: hkdfOutput.data() + PAYLOAD_KEY_SIZE, copying
PAYLOAD_AUTHENTICATION_KEY_SIZE bytes). -/
def authenticationKeySegmentEnd : Nat :=
  PAYLOAD_KEY_SIZE + PAYLOAD_AUTHENTICATION_KEY_SIZE

/-- One-past-the-end offset of the initialization-vector read of the HKDF
output (source: hkdfOutput.data() + PAYLOAD_KEY_SIZE +
PAYLOAD_AUTHENTICATION_KEY_SIZE, copying PAYLOAD_INITIALIZATION_VECTOR_SIZE
bytes). -/
def initializationVectorSegmentEnd : Nat :=
  PAYLOAD_KEY_SIZE + PAYLOAD_AUTHENTICATION_KEY_SIZE + PAYLOAD_INITIALIZATION_VECTOR_SIZE

/-! ## The symmetric payload cipher (claim C2)

The cryptographic primitives (QCA HKDF with the fixed salt and info, HMAC, and
the AES-256-CBC cipher) are abstract function parameters; decryptPayload below
is the control flow of QXmppOmemoManager_p.cpp lines 2028-2075 around them. -/

/-- The symmetric primitives decryptPayload delegates to: the HKDF expansion
of the 32-byte master key to HKDF_OUTPUT_SIZE bytes, the HMAC-SHA-256 of a
message under a key, and the AES-256-CBC decryption taking key, initialization
vector and ciphertext. -/
structure PayloadCrypto where
  hkdf : Bytes → Bytes
  hmacSha256 : Bytes → Bytes → Bytes
  aesCbcDecrypt : Bytes → Bytes → Bytes → Bytes

/-- decryptPayload (QXmppOmemoManager_p.cpp lines 2028-2075): split the first
HKDF_KEY_SIZE bytes of the decryption data into HKDF input, derive the
encryption key, authentication key and initialization vector, recompute the
truncated HMAC over the payload, compare it against the last
PAYLOAD_MESSAGE_AUTHENTICATION_CODE_SIZE bytes of the decryption data, and
only on a match run the cipher. An empty result models the
default-constructed byte array returned on failure. The system capability
check for the HMAC type (source lines 2050-2053, an environment query that
also returns the empty array when hmac(sha256) is unavailable) is taken as
satisfied. -/
def decryptPayload (c : PayloadCrypto) (payloadDecryptionData payload : Bytes) : Bytes :=
  let hkdfKey := resizeBytes payloadDecryptionData HKDF_KEY_SIZE
  let hkdfOutput := c.hkdf hkdfKey
  let encryptionKey := resizeBytes hkdfOutput PAYLOAD_KEY_SIZE
  let authenticationKey := segmentBytes hkdfOutput PAYLOAD_KEY_SIZE PAYLOAD_AUTHENTICATION_KEY_SIZE
  let initializationVector :=
    segmentBytes hkdfOutput (PAYLOAD_KEY_SIZE + PAYLOAD_AUTHENTICATION_KEY_SIZE)
      PAYLOAD_INITIALIZATION_VECTOR_SIZE
  let messageAuthenticationCode :=
    resizeBytes (c.hmacSha256 authenticationKey payload) PAYLOAD_MESSAGE_AUTHENTICATION_CODE_SIZE
  let expectedMessageAuthenticationCode :=
    rightBytes payloadDecryptionData PAYLOAD_MESSAGE_AUTHENTICATION_CODE_SIZE
  if messageAuthenticationCode ≠ expectedMessageAuthenticationCode then []
  else
    let decryptedPayload := c.aesCbcDecrypt encryptionKey initializationVector payload
    if decryptedPayload.isEmpty then [] else decryptedPayload

/-- The authentication tag decryptPayload recomputes over the payload. -/
def recomputedMessageAuthenticationCode (c : PayloadCrypto) (payloadDecryptionData payload : Bytes) : Bytes :=
  let hkdfKey := resizeBytes payloadDecryptionData HKDF_KEY_SIZE
  let hkdfOutput := c.hkdf hkdfKey
  let authenticationKey := segmentBytes hkdfOutput PAYLOAD_KEY_SIZE PAYLOAD_AUTHENTICATION_KEY_SIZE
  resizeBytes (c.hmacSha256 authenticationKey payload) PAYLOAD_MESSAGE_AUTHENTICATION_CODE_SIZE

/-- The authentication tag carried in the last 16 bytes of the decryption data. -/
def carriedMessageAuthenticationCode (payloadDecryptionData : Bytes) : Bytes :=
  rightBytes payloadDecryptionData PAYLOAD_MESSAGE_AUTHENTICATION_CODE_SIZE

/-! ## The non-key-exchange decryption switch (claim C9)

extractPayloadDecryptionData (QXmppOmemoManager_p.cpp lines 1959-1981)
switches on the status session_cipher_decrypt_signal_message returns and
reports results on its future interface. The C switch is embedded with its
fallthrough semantics: a case without a break also executes the body of the
following case. -/

/-- Status of the session decryption performed by the ratchet library. -/
inductive SignalDecryptStatus where
  | invalidMessage
  | duplicateMessage
  | legacyMessage
  | noSession
  | success
deriving DecidableEq

/-- One result reported on the future interface of
extractPayloadDecryptionData: either the empty secure array, or the copy of
the payload-decryption buffer made by reportResult. A missing buffer (still
the null pointer because the library reported an error without filling it)
is recorded as bufferResult none; in the source reportResult would then call
signal_buffer_data on a null pointer. -/
inductive ReportEvent where
  | emptyResult
  | bufferResult (buffer : Option Bytes)
deriving DecidableEq

/-- The switch on session_cipher_decrypt_signal_message
(QXmppOmemoManager_p.cpp lines 1961-1979), returning the list of results
reported on the future, in order. The first three cases end in a break. The
SG_ERR_NO_SESSION case reports the empty result and has no break, so control
falls through into the SG_SUCCESS case, which additionally runs reportResult
on the (unfilled) payload-decryption buffer. -/
def signalMessageDecryptReports (status : SignalDecryptStatus) (buffer : Option Bytes) :
    List ReportEvent :=
  match status with
  | .invalidMessage => [.emptyResult]
  | .duplicateMessage => [.emptyResult]
  | .legacyMessage => [.emptyResult]
  | .noSession => [.emptyResult, .bufferResult buffer]
  | .success => [.bufferResult buffer]

/-! ## OMEMO elements and envelope lookup (claim C4)

Data model of QXmppOmemoElement and QXmppOmemoEnvelope from
src/src/base/QXmppOmemoDataBase.cpp; the multi-hash from recipient JIDs to
envelopes is an association list. -/

/-- QXmppOmemoEnvelope: one per-recipient-device envelope. -/
structure OmemoEnvelope where
  recipientDeviceId : Nat
  isUsedForKeyExchange : Bool
  data : Bytes
deriving DecidableEq

/-- QXmppOmemoElement: the wire element holding the sender device id, the
shared encrypted payload and the envelopes keyed by recipient bare JID. -/
structure OmemoElement where
  senderDeviceId : Nat
  payload : Bytes
  envelopes : List (String × OmemoEnvelope)
deriving DecidableEq

/-- QXmppOmemoElement::searchEnvelope (QXmppOmemoDataBase.cpp lines 240-263,
OMEMO 2 branch): walk the envelopes stored under the recipient JID and return
the first one whose recipient device id matches, none otherwise. -/
def searchEnvelope (el : OmemoElement) (recipientJid : String) (recipientDeviceId : Nat) :
    Option OmemoEnvelope :=
  ((el.envelopes.filter (fun e => e.fst = recipientJid)).map Prod.snd).find?
    (fun envelope => envelope.recipientDeviceId = recipientDeviceId)

/-- State of a QFuture as observable by the caller: either it never finishes,
or it finishes with a value. -/
inductive FutureState (α : Type) where
  | pending
  | finished (value : α)
deriving DecidableEq

/-- decryptMessage (QXmppOmemoManager_p.cpp lines 1553-1603): a future
interface is created in the Started state; only when searchEnvelope finds an
envelope for this device does any branch report a finished result (the
processing of the found envelope, the empty-message handling and the
decryptStanza call, is abstracted as the processEnvelope parameter). The
source has no else branch for the no-envelope case, so nothing is ever
reported on the interface and the returned future stays pending. -/
def decryptMessage (processEnvelope : OmemoEnvelope → Option Bytes)
    (el : OmemoElement) (ownJid : String) (ownDeviceId : Nat) :
    FutureState (Option Bytes) :=
  match searchEnvelope el ownJid ownDeviceId with
  | some envelope => .finished (processEnvelope envelope)
  | none => .pending

/-- decryptIq (QXmppOmemoManager_p.cpp lines 1615-1641): when searchEnvelope
finds no envelope for this device, the function returns a ready future
holding nullopt; otherwise the found envelope is processed (abstracted as the
processEnvelope parameter). -/
def decryptIq (processEnvelope : OmemoEnvelope → Option Bytes)
    (el : OmemoElement) (ownJid : String) (ownDeviceId : Nat) :
    FutureState (Option Bytes) :=
  match searchEnvelope el ownJid ownDeviceId with
  | some envelope => .finished (processEnvelope envelope)
  | none => .finished none

/-- A concrete received OMEMO element whose only envelope is addressed to
device 2 of alice, so it holds no envelope for device 1. -/
def elementWithoutEnvelopeForDevice1 : OmemoElement :=
  { senderDeviceId := 9,
    payload := [1, 2, 3],
    envelopes := [("alice@example.org", { recipientDeviceId := 2, isUsedForKeyExchange := false, data := [4] })] }

/-! ## Devices and the decryption pipeline tail (claims C3 and C6)

QXmppOmemoStorage::Device as used by the manager: per-(owner JID, device id)
record with the key id cache, the serialized session and the liveness
counters. -/

/-- The per-remote-device record. -/
structure Device where
  keyId : Bytes
  session : Bytes
  unrespondedSentStanzasCount : Nat
  unrespondedReceivedStanzasCount : Nat
deriving DecidableEq

/-- The SCE affix fields and content read back by QXmppSceEnvelopeReader from
a deserialized SCE envelope. -/
structure SceEnvelopeRead where
  sceFrom : String
  sceTo : String
  sceTimestamp : Nat
  contentElement : String
deriving DecidableEq

/-- The metadata attached to a successfully decrypted stanza. -/
structure E2eeMetadata where
  sceTimestamp : Nat
  senderKey : Bytes
deriving DecidableEq

/-- The result decryptStanza reports on success. -/
structure DecryptionResult where
  sceContent : String
  e2eeMetadata : E2eeMetadata
deriving DecidableEq

/-- The tail of decryptStanza (QXmppOmemoManager_p.cpp lines 1660-1750, OMEMO
2 branch) after the SCE envelope extraction, whose outcome is the sceEnvelope
parameter (none models an empty serialized envelope). The sender affix must
equal the sender bare JID. The recipient affix is then compared against the
recipient bare JID only for group chat messages when the stanza is a message,
and unconditionally when it is an IQ. On passing both checks the sending
device's unresponded-sent counter is reset and the received counter either
triggers a heartbeat (the returned flag) and resets or is incremented.
Returns the reported result, the updated device record and the heartbeat
flag. -/
def decryptStanza (sceEnvelope : Option SceEnvelopeRead) (senderJid recipientJid : String)
    (isMessageStanza isGroupChatMessage : Bool) (device : Device) :
    Option DecryptionResult × Device × Bool :=
  match sceEnvelope with
  | none => (none, device, false)
  | some sce =>
    if sce.sceFrom ≠ senderJid then (none, device, false)
    else
      let isSceAffixElementValid : Bool :=
        if isMessageStanza then
          if isGroupChatMessage ∧ sce.sceTo ≠ recipientJid then false else true
        else
          if sce.sceTo ≠ recipientJid then false else true
      if ¬ isSceAffixElementValid then (none, device, false)
      else
        let deviceReset := { device with unrespondedSentStanzasCount := 0 }
        if deviceReset.unrespondedReceivedStanzasCount =
            UNRESPONDED_STANZAS_UNTIL_HEARTBEAT_MESSAGE_IS_SENT then
          let deviceDone := { deviceReset with unrespondedReceivedStanzasCount := 0 }
          (some { sceContent := sce.contentElement,
                  e2eeMetadata := { sceTimestamp := sce.sceTimestamp, senderKey := deviceDone.keyId } },
            deviceDone, true)
        else
          let deviceDone :=
            { deviceReset with
              unrespondedReceivedStanzasCount := deviceReset.unrespondedReceivedStanzasCount + 1 }
          (some { sceContent := sce.contentElement,
                  e2eeMetadata := { sceTimestamp := sce.sceTimestamp, senderKey := deviceDone.keyId } },
            deviceDone, false)

/-- A concrete device record used in counterexamples. -/
def deviceExample : Device :=
  { keyId := [11], session := [12], unrespondedSentStanzasCount := 3,
    unrespondedReceivedStanzasCount := 4 }

/-! ## The encryption fan-out (claims C1 and C6)

encryptStanza (QXmppOmemoManager_p.cpp lines 1139-1335) iterates over every
device of every recipient JID and runs an asynchronous per-device chain. The
chain's interactions with the collaborators (device-bundle fetch, trust
manager, security policy, ratchet session build, envelope-data encryption)
are recorded per device in a DeviceProcessingEnv holding the outcome each
collaborator reports; the branching around them is translated from the
source. The asynchronous continuations are sequentialized: each device's
chain runs to completion in list order, which fixes one interleaving of the
completion counters the source shares between the continuations. -/

/-- QXmpp trust levels. -/
inductive TrustLevel where
  | undecided
  | automaticallyDistrusted
  | manuallyDistrusted
  | automaticallyTrusted
  | manuallyTrusted
  | authenticated
deriving DecidableEq

/-- The outcomes of the external collaborators for one recipient device:
the fetched device bundle (none when the fetch fails; only its presence
matters here), the trust level the trust manager returns for the key, the
trust level the security policy stores when the former is undecided, whether
buildSession succeeds, and the envelope data createOmemoEnvelopeData returns
(empty on failure). -/
structure DeviceProcessingEnv where
  bundleFetchSucceeds : Bool
  storedTrustLevel : TrustLevel
  policyTrustLevel : TrustLevel
  buildSessionSucceeds : Bool
  omemoEnvelopeData : Bytes
deriving DecidableEq

/-- One recipient device of the fan-out: its owner JID, its id, its stored
record and the collaborator outcomes for it. -/
structure RecipientDevice where
  jid : String
  deviceId : Nat
  device : Device
  env : DeviceProcessingEnv
deriving DecidableEq

/-- How one device's chain ends: skipped for unresponsiveness (line 1179),
failed (controlDeviceProcessing(false) on any of the failure branches), or
succeeded with the envelope added to the OMEMO element. -/
inductive DeviceProcessingOutcome where
  | skipped
  | failed
  | success (envelope : OmemoEnvelope)
deriving DecidableEq

/-- addOmemoEnvelope (lines 1209-1234): succeed with the envelope when
createOmemoEnvelopeData produced data, fail otherwise. -/
def addOmemoEnvelopeOutcome (r : RecipientDevice) (isKeyExchange : Bool) :
    DeviceProcessingOutcome :=
  if r.env.omemoEnvelopeData.isEmpty then .failed
  else .success
    { recipientDeviceId := r.deviceId, isUsedForKeyExchange := isKeyExchange,
      data := r.env.omemoEnvelopeData }

/-- buildSessionDependingOnTrustLevel (lines 1236-1250): fail when the trust
level is not accepted, fail when buildSession fails, otherwise add a
key-exchange envelope. -/
def buildSessionDependingOnTrustLevelOutcome (acceptedTrustLevels : List TrustLevel)
    (r : RecipientDevice) (trustLevel : TrustLevel) : DeviceProcessingOutcome :=
  if ¬ acceptedTrustLevels.contains trustLevel then .failed
  else if ¬ r.env.buildSessionSucceeds then .failed
  else addOmemoEnvelopeOutcome r true

/-- The trust level against which the acceptedTrustLevels check is made for a
device: when its key id is not cached, the freshly retrieved level, replaced
by the security policy's level when it is undecided; when the key id is
cached, the retrieved level directly. -/
def effectiveTrustLevel (r : RecipientDevice) : TrustLevel :=
  if r.device.keyId.isEmpty then
    if r.env.storedTrustLevel = .undecided then r.env.policyTrustLevel
    else r.env.storedTrustLevel
  else r.env.storedTrustLevel

/-- The per-device chain of encryptStanza (lines 1174-1323): skip when the
unresponded-sent counter equals the stop threshold; otherwise, when the key
id is not cached, fetch the bundle (fail when that fails), resolve the trust
level through the security policy when undecided, and call
buildSessionDependingOnTrustLevel; when the key id is cached, check the trust
level (fail when unaccepted), fetch the bundle and build a session when no
session is stored, or add a plain envelope over the existing session. -/
def processDevice (acceptedTrustLevels : List TrustLevel) (r : RecipientDevice) :
    DeviceProcessingOutcome :=
  if r.device.unrespondedSentStanzasCount = UNRESPONDED_STANZAS_UNTIL_ENCRYPTION_IS_STOPPED then
    .skipped
  else if r.device.keyId.isEmpty then
    if ¬ r.env.bundleFetchSucceeds then .failed
    else
      buildSessionDependingOnTrustLevelOutcome acceptedTrustLevels r
        (if r.env.storedTrustLevel = .undecided then r.env.policyTrustLevel
         else r.env.storedTrustLevel)
  else
    if acceptedTrustLevels.contains r.env.storedTrustLevel then
      if r.device.session.isEmpty then
        if ¬ r.env.bundleFetchSucceeds then .failed
        else
          buildSessionDependingOnTrustLevelOutcome acceptedTrustLevels r
            r.env.storedTrustLevel
      else addOmemoEnvelopeOutcome r false
    else .failed

/-- The counter update addOmemoEnvelope performs on the stored device record
when an envelope is added (lines 1220-1222): reset the received counter and
increment the sent counter. On a skip or failure the record is unchanged. -/
def encryptDeviceCounterUpdate (device : Device) (outcome : DeviceProcessingOutcome) : Device :=
  match outcome with
  | .success _ =>
    { device with unrespondedReceivedStanzasCount := 0,
                  unrespondedSentStanzasCount := device.unrespondedSentStanzasCount + 1 }
  | _ => device

/-- The counters and partial OMEMO element shared by the per-device
continuations, plus the first result reported on the future interface (none
while nothing has been reported). -/
structure FanOutState where
  processedDevicesCount : Nat
  successfullyProcessedDevicesCount : Nat
  skippedDevicesCount : Nat
  envelopes : List (String × OmemoEnvelope)
  reported : Option (Option OmemoElement)
deriving DecidableEq

/-- The initial fan-out state. -/
def initialFanOutState : FanOutState :=
  { processedDevicesCount := 0, successfullyProcessedDevicesCount := 0,
    skippedDevicesCount := 0, envelopes := [], reported := none }

/-- One device's effect on the shared state. A skipped device only increments
skippedDevicesCount and reports the empty result when that counter reaches
devicesCount (lines 1179-1187). controlDeviceProcessing (lines 1189-1205)
increments processedDevicesCount (and successfullyProcessedDevicesCount on
success) and, when processedDevicesCount reaches devicesCount, reports either
the empty result (zero successes) or the assembled element. A success first
adds its envelope to the shared element. -/
def fanOutStep (acceptedTrustLevels : List TrustLevel) (devicesCount senderDeviceId : Nat)
    (encryptedPayload : Bytes) (st : FanOutState) (r : RecipientDevice) : FanOutState :=
  match processDevice acceptedTrustLevels r with
  | .skipped =>
    let skipped := st.skippedDevicesCount + 1
    { st with skippedDevicesCount := skipped,
              reported :=
                if st.reported.isNone ∧ skipped = devicesCount then some none
                else st.reported }
  | .failed =>
    let processed := st.processedDevicesCount + 1
    { st with processedDevicesCount := processed,
              reported :=
                if st.reported.isNone ∧ processed = devicesCount then
                  if st.successfullyProcessedDevicesCount = 0 then some none
                  else some (some { senderDeviceId := senderDeviceId,
                                    payload := encryptedPayload,
                                    envelopes := st.envelopes })
                else st.reported }
  | .success envelope =>
    let processed := st.processedDevicesCount + 1
    let envelopes := st.envelopes ++ [(r.jid, envelope)]
    { st with processedDevicesCount := processed,
              successfullyProcessedDevicesCount := st.successfullyProcessedDevicesCount + 1,
              envelopes := envelopes,
              reported :=
                if st.reported.isNone ∧ processed = devicesCount then
                  some (some { senderDeviceId := senderDeviceId,
                               payload := encryptedPayload,
                               envelopes := envelopes })
                else st.reported }

/-- encryptStanza (lines 1139-1335) for an already encrypted payload: when no
recipient device exists the empty result is reported at once (lines
1325-1328); otherwise the per-device chains run (sequentialized in list
order) and the returned value is what was reported on the future interface
when all chains have completed: none when nothing was ever reported (the
future never finishes), some none when the operation failed, and some (some
element) when the OMEMO element was produced. The devicesCount the completion
checks compare against is capped at DEVICES_PER_STANZA_MAX (lines
1152-1159). -/
def encryptStanza (acceptedTrustLevels : List TrustLevel) (senderDeviceId : Nat)
    (encryptedPayload : Bytes) (recipientDevices : List RecipientDevice) :
    Option (Option OmemoElement) :=
  let devicesCount := min recipientDevices.length DEVICES_PER_STANZA_MAX
  if devicesCount = 0 then some none
  else
    (recipientDevices.foldl
      (fanOutStep acceptedTrustLevels devicesCount senderDeviceId encryptedPayload)
      initialFanOutState).reported

/-- Whether a device-processing outcome is a success. -/
def isSuccessOutcome : DeviceProcessingOutcome → Bool
  | .success _ => true
  | _ => false

/-- The count of successfully processed devices of a fan-out. -/
def successfullyProcessedCount (acceptedTrustLevels : List TrustLevel)
    (recipientDevices : List RecipientDevice) : Nat :=
  (recipientDevices.filter (fun r => isSuccessOutcome (processDevice acceptedTrustLevels r))).length

/-- A concrete device past the unresponsiveness threshold: its chain is
skipped. -/
def skippedRecipientExample : RecipientDevice :=
  { jid := "bob@example.org", deviceId := 1,
    device := { keyId := [1], session := [2],
                unrespondedSentStanzasCount := UNRESPONDED_STANZAS_UNTIL_ENCRYPTION_IS_STOPPED,
                unrespondedReceivedStanzasCount := 0 },
    env := { bundleFetchSucceeds := true, storedTrustLevel := .authenticated,
             policyTrustLevel := .authenticated, buildSessionSucceeds := true,
             omemoEnvelopeData := [9] } }

/-- A concrete device with a distrusted key: its chain fails. -/
def distrustedRecipientExample : RecipientDevice :=
  { jid := "bob@example.org", deviceId := 2,
    device := { keyId := [1], session := [2], unrespondedSentStanzasCount := 0,
                unrespondedReceivedStanzasCount := 0 },
    env := { bundleFetchSucceeds := true, storedTrustLevel := .automaticallyDistrusted,
             policyTrustLevel := .automaticallyDistrusted, buildSessionSucceeds := true,
             omemoEnvelopeData := [9] } }

/-- A concrete trusted device with an existing session: its chain succeeds. -/
def trustedRecipientExample : RecipientDevice :=
  { jid := "bob@example.org", deviceId := 3,
    device := { keyId := [1], session := [2], unrespondedSentStanzasCount := 0,
                unrespondedReceivedStanzasCount := 0 },
    env := { bundleFetchSucceeds := true, storedTrustLevel := .authenticated,
             policyTrustLevel := .authenticated, buildSessionSucceeds := true,
             omemoEnvelopeData := [9] } }

/-- Provenance of an envelope of the assembled OMEMO element: it was produced
by the successful processing of one of the fan-out's recipient devices. -/
def EnvelopeProvenance (acceptedTrustLevels : List TrustLevel) (rs : List RecipientDevice)
    (p : String × OmemoEnvelope) : Prop :=
  ∃ r ∈ rs, r.jid = p.fst ∧ processDevice acceptedTrustLevels r = .success p.snd

/-! ## Session building from a device bundle (claim C5) -/

/-- QXmppOmemoDeviceBundle: the published public view of a device, with the
one-time public pre-keys as an association list from pre-key id to key. -/
structure DeviceBundle where
  publicIdentityKey : Bytes
  signedPublicPreKeyId : Nat
  signedPublicPreKey : Bytes
  signedPublicPreKeySignature : Bytes
  publicPreKeys : List (Nat × Bytes)
deriving DecidableEq

/-- How a run of buildSession ends: with the boolean it returns, or by
reaching an out-of-bounds access before any return. -/
inductive BuildSessionRun where
  | returnedFalse
  | returnedTrue
  | outOfBoundsPreKeyAccess
deriving DecidableEq

/-- The outcomes of the ratchet-library calls buildSession and
createSessionBundle make: whether session_builder_create succeeds, whether
the four deserializations of the bundle data succeed, whether
session_pre_key_bundle_create succeeds, and whether
session_builder_process_pre_key_bundle (which verifies the signed-pre-key
signature) succeeds. -/
structure BuildSessionEnv where
  sessionBuilderCreated : Bool
  bundleDataDeserialized : Bool
  sessionPreKeyBundleCreated : Bool
  processPreKeyBundleSucceeds : Bool
deriving DecidableEq

/-- createSessionBundle (QXmppOmemoManager_p.cpp lines 3857-3898): succeeds
when the bundle data deserializes and the library creates the pre-key
bundle. -/
def createSessionBundleSucceeds (env : BuildSessionEnv) : Bool :=
  env.bundleDataDeserialized && env.sessionPreKeyBundleCreated

/-- buildSession (QXmppOmemoManager_p.cpp lines 3793-3841). When the bundle
offers no public pre-keys the source only logs a warning (lines 3799-3801)
and continues: it computes a random index over the empty id list and
evaluates publicPreKeyIds.at(publicPreKeyIndex), an out-of-bounds access on
an empty QList, recorded here as the distinguished outOfBoundsPreKeyAccess
run before any of the boolean returns is reached. With a non-empty pre-key
list a pre-key is chosen and the function returns false on the first failing
library call, true otherwise. -/
def buildSession (env : BuildSessionEnv) (deviceBundle : DeviceBundle) : BuildSessionRun :=
  let publicPreKeyIds := deviceBundle.publicPreKeys.map Prod.fst
  if publicPreKeyIds.length = 0 then .outOfBoundsPreKeyAccess
  else
    if ¬ env.sessionBuilderCreated then .returnedFalse
    else if ¬ createSessionBundleSucceeds env then .returnedFalse
    else if ¬ env.processPreKeyBundleSucceeds then .returnedFalse
    else .returnedTrue

/-- A bundle offering no public pre-keys. -/
def bundleWithoutPreKeys : DeviceBundle :=
  { publicIdentityKey := [1], signedPublicPreKeyId := 1, signedPublicPreKey := [2],
    signedPublicPreKeySignature := [3], publicPreKeys := [] }

/-- The same bundle with one public pre-key. -/
def bundleWithOnePreKey : DeviceBundle :=
  { publicIdentityKey := [1], signedPublicPreKeyId := 1, signedPublicPreKey := [2],
    signedPublicPreKeySignature := [3], publicPreKeys := [(4, [5])] }

/-- A build-session environment in which every library call succeeds. -/
def buildSessionEnvAllSucceed : BuildSessionEnv :=
  { sessionBuilderCreated := true, bundleDataDeserialized := true,
    sessionPreKeyBundleCreated := true, processPreKeyBundleSucceeds := true }

/-! ## Pre-key and signed-pre-key id discipline (claim C7) -/

/-- The modulus of uint32 arithmetic. -/
def UINT32_MOD : Nat := 4294967296

/-- The id the next batch of pre-keys starts at, from updatePreKeyPairs
(QXmppOmemoManager_p.cpp lines 918-926): wrap to PRE_KEY_ID_MIN when
latestPreKeyId + count (a uint32 sum) would exceed PRE_KEY_ID_MAX, increment
unless latestPreKeyId still equals PRE_KEY_ID_MIN (the setup case), keep it
otherwise. -/
def wrappedPreKeyStartId (latestPreKeyId count : Nat) : Nat :=
  if PRE_KEY_ID_MAX < (latestPreKeyId + count) % UINT32_MOD then PRE_KEY_ID_MIN
  else if latestPreKeyId ≠ PRE_KEY_ID_MIN then (latestPreKeyId + 1) % UINT32_MOD
  else latestPreKeyId

/-- Modelled from the spec: generatePreKeys(startId, count) of the external
ratchet library (spec section 6, Ratchet/X3DH library interface; the library
itself is not part of the repository) returns count pre-key pairs whose ids
are startId, startId + 1, up to startId + count - 1, the ids
updatePreKeyPairs then reads back with session_pre_key_get_id. -/
def generatePreKeyIds (startId count : Nat) : List Nat :=
  (List.range count).map (fun i => startId + i)

/-- QHash insert semantics: an existing entry with the same key is replaced. -/
def hashInsert (pool : List (Nat × Bytes)) (k : Nat) (v : Bytes) : List (Nat × Bytes) :=
  if pool.any (fun p => p.fst = k) then
    pool.map (fun p => if p.fst = k then (k, v) else p)
  else pool ++ [(k, v)]

/-- What updatePreKeyPairs leaves behind: the new latestPreKeyId of the own
device, the ids of the generated pairs, and the pre-key pool after inserting
them. -/
structure PreKeyUpdateResult where
  newLatestPreKeyId : Nat
  generatedIds : List Nat
  preKeyPairs : List (Nat × Bytes)
deriving DecidableEq

/-- updatePreKeyPairs (QXmppOmemoManager_p.cpp lines 915-970): compute the
start id, generate count pairs from it, insert each generated pair into the
pool under its id (QHash::insert, overwriting), and set latestPreKeyId to
startId - 1 + count. The key material itself is opaque (the newKeyMaterial
parameter). -/
def updatePreKeyPairs (latestPreKeyId count : Nat) (pool : List (Nat × Bytes))
    (newKeyMaterial : Nat → Bytes) : PreKeyUpdateResult :=
  let startId := wrappedPreKeyStartId latestPreKeyId count
  let ids := generatePreKeyIds startId count
  { newLatestPreKeyId := startId - 1 + count,
    generatedIds := ids,
    preKeyPairs := ids.foldl (fun acc i => hashInsert acc i (newKeyMaterial i)) pool }

/-- The id updateSignedPreKeyPair (QXmppOmemoManager_p.cpp lines 813-824)
assigns to the new signed pre-key pair: wrap to SIGNED_PRE_KEY_ID_MIN when
the incremented id would exceed SIGNED_PRE_KEY_ID_MAX, increment unless the
latest id still equals SIGNED_PRE_KEY_ID_MIN, keep it otherwise. -/
def updatedSignedPreKeyPairId (latestSignedPreKeyId : Nat) : Nat :=
  if SIGNED_PRE_KEY_ID_MAX < (latestSignedPreKeyId + 1) % UINT32_MOD then SIGNED_PRE_KEY_ID_MIN
  else if latestSignedPreKeyId ≠ SIGNED_PRE_KEY_ID_MIN then (latestSignedPreKeyId + 1) % UINT32_MOD
  else latestSignedPreKeyId

/-! ## The signed-pre-key renewal sweep (claim C10) -/

/-- QXmppOmemoStorage::SignedPreKeyPair: creation date (seconds since epoch)
and serialized key material. -/
structure SignedPreKeyRecord where
  creationDate : Nat
  data : Bytes
deriving DecidableEq

/-- The age check of renewSignedPreKeyPairs (QXmppOmemoManager_p.cpp line
773): the pair is removed when currentDate - creationDate exceeds
SIGNED_PRE_KEY_RENEWAL_INTERVAL. -/
def signedPreKeyPairExpired (currentDate : Nat) (record : SignedPreKeyRecord) : Bool :=
  SIGNED_PRE_KEY_RENEWAL_INTERVAL < currentDate - record.creationDate

/-- The removal loop of renewSignedPreKeyPairs (QXmppOmemoManager_p.cpp lines
768-780) over the signed-pre-key map in iteration order. For an expired
entry the source first erases it, receiving in itr the iterator to the NEXT
entry, and only then calls omemoStorage removeSignedPreKeyPair with
itr.key(): the id passed to storage is the next entry's id, not the erased
one, and when the erased entry was the last one itr is the end iterator and
itr.key() dereferences it (recorded as none). Returns the entries remaining
in memory and, in call order, the ids passed to the storage removal. -/
def renewSignedPreKeyPairsSweep (currentDate : Nat) :
    List (Nat × SignedPreKeyRecord) → List (Nat × SignedPreKeyRecord) × List (Option Nat)
  | [] => ([], [])
  | entry :: rest =>
    if signedPreKeyPairExpired currentDate entry.snd then
      let result := renewSignedPreKeyPairsSweep currentDate rest
      (result.fst, (rest.head?.map Prod.fst) :: result.snd)
    else
      let result := renewSignedPreKeyPairsSweep currentDate rest
      (entry :: result.fst, result.snd)

end QXmppOmemo

namespace QXmppOmemo

/-! # Theorems -/

/-- C8: the claim states that the encryption key, the authentication key and
the initialization vector are all copied from byte offsets lying entirely
within the HKDF output buffer of HKDF_OUTPUT_SIZE bytes. The first two reads
are in bounds, but the initialization-vector read ends at byte 64 of a
60-byte buffer: the copy reads 4 bytes past the end of the HKDF output, so
the claim fails on the code. -/
theorem c8_initialization_vector_read_out_of_bounds :
    encryptionKeySegmentEnd ≤ HKDF_OUTPUT_SIZE ∧
    authenticationKeySegmentEnd ≤ HKDF_OUTPUT_SIZE ∧
    HKDF_OUTPUT_SIZE < initializationVectorSegmentEnd ∧
    initializationVectorSegmentEnd = 64 ∧ HKDF_OUTPUT_SIZE = 60 := by
  refine ⟨?_, ?_, ?_, rfl, rfl⟩ <;> decide

/-- C2: whenever the authentication tag recomputed over the payload (the
HMAC-SHA-256 under the derived authentication key, truncated to 16 bytes)
differs from the tag carried in the last 16 bytes of the decryption data,
decryptPayload returns the empty byte array, and it does so for every
possible symmetric cipher, i.e. without the result depending on running the
cipher at all. A single-bit change of the ciphertext or of the carried tag
that makes the two tags differ therefore yields an authentication failure and
never altered plaintext. -/
theorem decryptPayload_rejects_unauthenticated (c : PayloadCrypto)
    (payloadDecryptionData payload : Bytes)
    (h : recomputedMessageAuthenticationCode c payloadDecryptionData payload ≠
      carriedMessageAuthenticationCode payloadDecryptionData) :
    ∀ cipher : Bytes → Bytes → Bytes → Bytes,
      decryptPayload { c with aesCbcDecrypt := cipher } payloadDecryptionData payload = [] := by
  intro cipher
  simp only [decryptPayload, recomputedMessageAuthenticationCode,
    carriedMessageAuthenticationCode] at h ⊢
  rw [if_pos h]

/-- Witness for C2 at concrete inputs: an all-zero 48-byte decryption data
whose carried tag (16 zero bytes) differs from the recomputed tag of a
constant HMAC returning ones. -/
theorem decryptPayload_rejects_unauthenticated_witness :
    decryptPayload
      { hkdf := fun k => resizeBytes k HKDF_OUTPUT_SIZE,
        hmacSha256 := fun _ _ => List.replicate 32 1,
        aesCbcDecrypt := fun _ _ p => p }
      (List.replicate 48 0) [7, 7, 7] = [] :=
  decryptPayload_rejects_unauthenticated
    { hkdf := fun k => resizeBytes k HKDF_OUTPUT_SIZE,
      hmacSha256 := fun _ _ => List.replicate 32 1,
      aesCbcDecrypt := fun _ _ p => p }
    (List.replicate 48 0) [7, 7, 7] (by decide) (fun _ _ p => p)

/-- C9: on a non-key-exchange envelope for which the ratchet library reports
the no-session error, the claim states that exactly one (empty) result is
reported and the success branch is not executed. In the code the
SG_ERR_NO_SESSION case has no break: after reporting the empty result it
falls through into the SG_SUCCESS case and additionally runs reportResult on
the payload-decryption buffer, which the failed call never filled (a null
pointer dereference), so the claim fails on the code. -/
theorem c9_no_session_falls_through_to_success :
    signalMessageDecryptReports SignalDecryptStatus.noSession none =
      [ReportEvent.emptyResult, ReportEvent.bufferResult none] ∧
    (signalMessageDecryptReports SignalDecryptStatus.noSession none).length ≠ 1 := by
  exact ⟨rfl, by decide⟩

/-- C4: the claim states that on a stanza whose OMEMO element holds no
envelope for this device, both decryptMessage and decryptIq complete their
futures with an empty no-op result. Evaluated on such an element, decryptIq
does finish with the empty result, but decryptMessage never reports anything:
its source has no else branch for the no-envelope case, so the returned
future stays pending forever, and the claim fails on the code. -/
theorem c4_decryptMessage_future_never_finishes :
    decryptMessage (fun _ => none) elementWithoutEnvelopeForDevice1 "alice@example.org" 1 =
      FutureState.pending ∧
    decryptIq (fun _ => none) elementWithoutEnvelopeForDevice1 "alice@example.org" 1 =
      FutureState.finished none ∧
    searchEnvelope elementWithoutEnvelopeForDevice1 "alice@example.org" 1 = none := by
  refine ⟨?_, ?_, ?_⟩ <;> decide

/-- C3 counterexample: a non-group-chat message whose SCE recipient affix
(carol) differs from the local recipient bare JID (alice) is still decrypted
successfully, contradicting the claim that for any non-group-chat message a
recipient-affix mismatch is a hard decryption failure. -/
theorem c3_counterexample_to_mismatch_accepted_for_chat_message :
    (decryptStanza
        (some { sceFrom := "bob@example.org", sceTo := "carol@example.org",
                sceTimestamp := 5, contentElement := "content" })
        "bob@example.org" "alice@example.org" true false deviceExample).fst.isSome = true ∧
    "carol@example.org" ≠ "alice@example.org" := by
  refine ⟨?_, ?_⟩ <;> decide

/-- C3 amended: decryptStanza fails exactly when the SCE envelope is missing,
when the sender affix differs from the sender bare JID, or when the recipient
affix differs from the recipient bare JID for a group chat message or for an
IQ; for non-group-chat messages the recipient affix is not checked at all. -/
theorem decryptStanza_affix_validation (sce : SceEnvelopeRead) (senderJid recipientJid : String)
    (isMessageStanza isGroupChatMessage : Bool) (device : Device) :
    (decryptStanza (some sce) senderJid recipientJid isMessageStanza isGroupChatMessage
        device).fst = none ↔
      (sce.sceFrom ≠ senderJid ∨
        (isMessageStanza = true ∧ isGroupChatMessage = true ∧ sce.sceTo ≠ recipientJid) ∨
        (isMessageStanza = false ∧ sce.sceTo ≠ recipientJid)) := by
  simp only [decryptStanza]
  by_cases hFrom : sce.sceFrom = senderJid
  · simp only [hFrom, ne_eq, not_true_eq_false, if_false, false_or]
    by_cases hMsg : isMessageStanza
    · subst hMsg
      by_cases hGc : isGroupChatMessage
      · subst hGc
        by_cases hTo : sce.sceTo = recipientJid
        · simp [hTo]
          split <;> simp
        · simp [hTo]
      · simp only [Bool.not_eq_true] at hGc
        subst hGc
        simp
        split <;> simp
    · simp only [Bool.not_eq_true] at hMsg
      subst hMsg
      by_cases hTo : sce.sceTo = recipientJid
      · simp [hTo]
        split <;> simp
      · simp [hTo]
  · simp [hFrom]

/-- C5: the claim states that buildSession returns false whenever the device
bundle offers no public pre-keys, never proceeding to choose a pre-key from
an empty list. Evaluated on a bundle with an empty pre-key map (and every
library call succeeding), the embedded buildSession does not return false:
the source only logs a warning and then indexes the empty pre-key id list,
an out-of-bounds access. The other failure cases do return false, as the
last conjunct shows for a bundle whose data fails to deserialize. -/
theorem c5_empty_bundle_reaches_out_of_bounds_access :
    buildSession buildSessionEnvAllSucceed bundleWithoutPreKeys =
      BuildSessionRun.outOfBoundsPreKeyAccess ∧
    buildSession buildSessionEnvAllSucceed bundleWithoutPreKeys ≠
      BuildSessionRun.returnedFalse ∧
    bundleWithoutPreKeys.publicPreKeys = [] ∧
    buildSession { buildSessionEnvAllSucceed with bundleDataDeserialized := false }
      bundleWithOnePreKey = BuildSessionRun.returnedFalse := by
  refine ⟨rfl, ?_, rfl, rfl⟩
  decide

/-- C10: the claim states that the id erased from the in-memory
signed-pre-key map and the id passed to the storage removal are the same.
In a sweep over an expired entry with id 5 followed by a fresh entry with id
7, memory ends up holding exactly id 7, yet storage is told to remove id 7
(the key of the iterator returned by erase, which points at the next entry)
and is never told to remove id 5. When the expired entry is the last one,
the source even reads the key of the end iterator (recorded as none). -/
theorem c10_storage_removal_uses_next_entry_id :
    renewSignedPreKeyPairsSweep 2419201
        [(5, { creationDate := 0, data := [1] }), (7, { creationDate := 2419201, data := [2] })] =
      ([(7, { creationDate := 2419201, data := [2] })], [some 7]) ∧
    some 5 ∉ (renewSignedPreKeyPairsSweep 2419201
        [(5, { creationDate := 0, data := [1] }),
         (7, { creationDate := 2419201, data := [2] })]).snd ∧
    renewSignedPreKeyPairsSweep 2419201 [(5, { creationDate := 0, data := [1] })] =
      ([], [none]) := by
  refine ⟨?_, ?_, ?_⟩ <;> decide

/-- C7 counterexample: with the pool still holding the unconsumed pre-key
pair with id PRE_KEY_ID_MIN and latestPreKeyId at PRE_KEY_ID_MAX,
updatePreKeyPairs wraps and assigns id PRE_KEY_ID_MIN to the new pair,
overwriting the stored pair (its key material changes from the old bytes to
the new ones), contradicting the claim that a wrapped id is never assigned
while a pool entry with that id is still stored. -/
theorem c7_counterexample_wrap_overwrites_stored_pair :
    (updatePreKeyPairs PRE_KEY_ID_MAX 1 [(PRE_KEY_ID_MIN, [9])] (fun _ => [5])).generatedIds =
      [PRE_KEY_ID_MIN] ∧
    (updatePreKeyPairs PRE_KEY_ID_MAX 1 [(PRE_KEY_ID_MIN, [9])] (fun _ => [5])).preKeyPairs =
      [(PRE_KEY_ID_MIN, [5])] := by
  refine ⟨?_, ?_⟩ <;> decide

/-- A successfully processed device passed the acceptedTrustLevels check on
its effective trust level: every branch of processDevice that reaches an
envelope is guarded by the containment test. -/
theorem processDevice_success_trusted (acceptedTrustLevels : List TrustLevel)
    (r : RecipientDevice) (envelope : OmemoEnvelope)
    (h : processDevice acceptedTrustLevels r = .success envelope) :
    acceptedTrustLevels.contains (effectiveTrustLevel r) = true := by
  unfold processDevice buildSessionDependingOnTrustLevelOutcome addOmemoEnvelopeOutcome at h
  unfold effectiveTrustLevel
  split_ifs at h <;> simp_all

/-- One fan-out step preserves envelope provenance, both of the shared
element under construction and of any element already reported. -/
theorem fanOutStep_preserves_provenance (A : List TrustLevel) (dc sid : Nat) (payload : Bytes)
    (rs : List RecipientDevice) (r : RecipientDevice) (hr : r ∈ rs) (st : FanOutState)
    (h1 : ∀ p ∈ st.envelopes, EnvelopeProvenance A rs p)
    (h2 : ∀ el, st.reported = some (some el) → ∀ p ∈ el.envelopes, EnvelopeProvenance A rs p) :
    (∀ p ∈ (fanOutStep A dc sid payload st r).envelopes, EnvelopeProvenance A rs p) ∧
    (∀ el, (fanOutStep A dc sid payload st r).reported = some (some el) →
      ∀ p ∈ el.envelopes, EnvelopeProvenance A rs p) := by
  cases hout : processDevice A r with
  | skipped =>
    refine ⟨by simpa [fanOutStep, hout] using h1, ?_⟩
    intro el hel
    simp only [fanOutStep, hout] at hel
    split at hel
    · simp at hel
    · exact h2 el hel
  | failed =>
    refine ⟨by simpa [fanOutStep, hout] using h1, ?_⟩
    intro el hel
    simp only [fanOutStep, hout] at hel
    split at hel
    · split at hel
      · simp at hel
      · have hel2 : (({ senderDeviceId := sid, payload := payload,
                          envelopes := st.envelopes } : OmemoElement)) = el :=
          Option.some.inj (Option.some.inj hel)
        subst hel2
        exact h1
    · exact h2 el hel
  | success envelope =>
    have henv : ∀ p ∈ st.envelopes ++ [(r.jid, envelope)], EnvelopeProvenance A rs p := by
      intro p hp
      rcases List.mem_append.mp hp with hp | hp
      · exact h1 p hp
      · rcases List.mem_singleton.mp hp with rfl
        exact ⟨r, hr, rfl, hout⟩
    refine ⟨by simpa [fanOutStep, hout] using henv, ?_⟩
    intro el hel
    simp only [fanOutStep, hout] at hel
    split at hel
    · have hel2 : (({ senderDeviceId := sid, payload := payload,
                        envelopes := st.envelopes ++ [(r.jid, envelope)] } : OmemoElement)) = el :=
        Option.some.inj (Option.some.inj hel)
      subst hel2
      exact henv
    · exact h2 el hel

/-- One fan-out step of a non-successful device keeps the success counter at
zero and never reports an OMEMO element. -/
theorem fanOutStep_preserves_no_success (A : List TrustLevel) (dc sid : Nat) (payload : Bytes)
    (r : RecipientDevice) (hr : isSuccessOutcome (processDevice A r) = false) (st : FanOutState)
    (hsucc : st.successfullyProcessedDevicesCount = 0)
    (hrep : ∀ el, st.reported ≠ some (some el)) :
    (fanOutStep A dc sid payload st r).successfullyProcessedDevicesCount = 0 ∧
    ∀ el, (fanOutStep A dc sid payload st r).reported ≠ some (some el) := by
  cases hout : processDevice A r with
  | success envelope => rw [hout] at hr; simp [isSuccessOutcome] at hr
  | skipped =>
    refine ⟨by simpa [fanOutStep, hout] using hsucc, ?_⟩
    intro el
    simp only [fanOutStep, hout]
    split
    · simp
    · exact hrep el
  | failed =>
    refine ⟨by simpa [fanOutStep, hout] using hsucc, ?_⟩
    intro el
    simp only [fanOutStep, hout]
    split
    · simp
    · exact hrep el

/-- Fold form of provenance preservation over the whole device list. -/
theorem fanOut_provenance (A : List TrustLevel) (dc sid : Nat) (payload : Bytes)
    (rs : List RecipientDevice) :
    ∀ l : List RecipientDevice, (∀ r ∈ l, r ∈ rs) →
    ∀ st : FanOutState,
      (∀ p ∈ st.envelopes, EnvelopeProvenance A rs p) →
      (∀ el, st.reported = some (some el) → ∀ p ∈ el.envelopes, EnvelopeProvenance A rs p) →
      ∀ el, (l.foldl (fanOutStep A dc sid payload) st).reported = some (some el) →
        ∀ p ∈ el.envelopes, EnvelopeProvenance A rs p := by
  intro l
  induction l with
  | nil => intro _ st _ h2; exact h2
  | cons r l ih =>
    intro hsub st h1 h2
    obtain ⟨h1n, h2n⟩ := fanOutStep_preserves_provenance A dc sid payload rs r
      (hsub r (List.mem_cons_self r l)) st h1 h2
    exact ih (fun x hx => hsub x (List.mem_cons_of_mem r hx))
      (fanOutStep A dc sid payload st r) h1n h2n

/-- Fold form of the zero-success preservation over the whole device list. -/
theorem fanOut_no_success (A : List TrustLevel) (dc sid : Nat) (payload : Bytes) :
    ∀ l : List RecipientDevice, (∀ r ∈ l, isSuccessOutcome (processDevice A r) = false) →
    ∀ st : FanOutState,
      st.successfullyProcessedDevicesCount = 0 →
      (∀ el, st.reported ≠ some (some el)) →
      ∀ el, (l.foldl (fanOutStep A dc sid payload) st).reported ≠ some (some el) := by
  intro l
  induction l with
  | nil => intro _ st _ h2; exact h2
  | cons r l ih =>
    intro hl st hsucc hrep
    obtain ⟨hsn, hrn⟩ := fanOutStep_preserves_no_success A dc sid payload r
      (hl r (List.mem_cons_self r l)) st hsucc hrep
    exact ih (fun x hx => hl x (List.mem_cons_of_mem r hx))
      (fanOutStep A dc sid payload st r) hsn hrn

/-- C1 amended: (1) trust gating holds as claimed: every envelope of a
returned OMEMO element was produced for a recipient device whose key's
(effective) trust level is contained in acceptedTrustLevels — a device with
an unaccepted trust level never receives an envelope; (2) when zero recipient
devices are successfully processed no OMEMO element is ever returned —
however, contrary to the claim, the operation does not always fail in that
case: when some devices are skipped for unresponsiveness and others are
processed, neither completion counter reaches devicesCount and the future
never finishes (see the counterexample), so the guarantee is only that no
partially built element is returned. -/
theorem encryptStanza_trust_gated_and_no_element_on_zero_success
    (A : List TrustLevel) (sid : Nat) (payload : Bytes) (rs : List RecipientDevice) :
    (∀ el, encryptStanza A sid payload rs = some (some el) →
      ∀ p ∈ el.envelopes, ∃ r ∈ rs, r.jid = p.fst ∧
        processDevice A r = .success p.snd ∧
        A.contains (effectiveTrustLevel r) = true) ∧
    ((∀ r ∈ rs, isSuccessOutcome (processDevice A r) = false) →
      ∀ el, encryptStanza A sid payload rs ≠ some (some el)) := by
  constructor
  · intro el hel p hp
    simp only [encryptStanza] at hel
    split at hel
    · simp at hel
    · have hprov := fanOut_provenance A (min rs.length DEVICES_PER_STANZA_MAX) sid payload rs rs
        (fun _ hx => hx) initialFanOutState (by simp [initialFanOutState])
        (by simp [initialFanOutState]) el hel p hp
      obtain ⟨r, hr, hjid, hsucc⟩ := hprov
      exact ⟨r, hr, hjid, hsucc, processDevice_success_trusted A r p.snd hsucc⟩
  · intro hnone el
    simp only [encryptStanza]
    split
    · simp
    · exact fanOut_no_success A (min rs.length DEVICES_PER_STANZA_MAX) sid payload rs hnone
        initialFanOutState (by simp [initialFanOutState]) (by simp [initialFanOutState]) el

/-- Witness for C1 at concrete inputs: the element produced for one trusted
device consists of an envelope whose device passed the trust check, and a
fan-out over one distrusted device returns no OMEMO element. -/
theorem encryptStanza_trust_gated_witness :
    (∃ r ∈ [trustedRecipientExample], r.jid = "bob@example.org" ∧
      processDevice [TrustLevel.authenticated] r =
        DeviceProcessingOutcome.success
          { recipientDeviceId := 3, isUsedForKeyExchange := false, data := [9] } ∧
      [TrustLevel.authenticated].contains (effectiveTrustLevel r) = true) ∧
    encryptStanza [TrustLevel.authenticated] 1 [7] [distrustedRecipientExample] ≠
      some (some { senderDeviceId := 1, payload := [7], envelopes := [] }) := by
  constructor
  · exact (encryptStanza_trust_gated_and_no_element_on_zero_success
        [TrustLevel.authenticated] 1 [7] [trustedRecipientExample]).1
      { senderDeviceId := 1, payload := [7],
        envelopes := [("bob@example.org",
          { recipientDeviceId := 3, isUsedForKeyExchange := false, data := [9] })] }
      (by decide)
      ("bob@example.org", { recipientDeviceId := 3, isUsedForKeyExchange := false, data := [9] })
      (by decide)
  · exact (encryptStanza_trust_gated_and_no_element_on_zero_success
        [TrustLevel.authenticated] 1 [7] [distrustedRecipientExample]).2 (by decide) _

/-- C1 counterexample: the claim states that whenever zero recipient devices
are successfully processed the operation returns no OMEMO element, i.e.
fails. For a fan-out over one device skipped for unresponsiveness and one
device with an unaccepted trust level, zero devices succeed, yet the
operation does not return a failure: neither completion counter ever reaches
devicesCount, nothing is reported, and the future never finishes (outer
none, rather than the reported failure some none). -/
theorem c1_counterexample_mixed_skip_and_failure_never_reports :
    encryptStanza [TrustLevel.authenticated] 1 [7]
        [skippedRecipientExample, distrustedRecipientExample] = none ∧
    successfullyProcessedCount [TrustLevel.authenticated]
        [skippedRecipientExample, distrustedRecipientExample] = 0 := by
  refine ⟨?_, ?_⟩ <;> decide

/-- A device whose unresponded-sent counter differs from the stop threshold
is never skipped by the fan-out. -/
theorem processDevice_not_skipped (A : List TrustLevel) (r : RecipientDevice)
    (h : r.device.unrespondedSentStanzasCount ≠ UNRESPONDED_STANZAS_UNTIL_ENCRYPTION_IS_STOPPED) :
    processDevice A r ≠ .skipped := by
  unfold processDevice buildSessionDependingOnTrustLevelOutcome addOmemoEnvelopeOutcome
  split_ifs <;> simp_all

/-- A successful decryptStanza run leaves the sending device's
unresponded-sent counter at zero. -/
theorem decryptStanza_success_resets_sent_counter (sce : SceEnvelopeRead)
    (senderJid recipientJid : String) (isMessageStanza isGroupChatMessage : Bool)
    (device : Device) (result : DecryptionResult) (updatedDevice : Device) (heartbeat : Bool)
    (h : decryptStanza (some sce) senderJid recipientJid isMessageStanza isGroupChatMessage
        device = (some result, updatedDevice, heartbeat)) :
    updatedDevice.unrespondedSentStanzasCount = 0 := by
  simp only [decryptStanza] at h
  split_ifs at h <;>
    first
      | exact (congrArg (fun t => t.2.1.unrespondedSentStanzasCount) h).symm
      | exact absurd h (by simp)

/-- C6: a device whose unrespondedSentStanzasCount has reached the threshold
106 is skipped by the encryption fan-out: it gets no envelope and its record
(in particular the counter) is left unchanged, so every subsequent encryption
call skips it as well. After a successful decryption of a stanza from that
device, the counter is reset to 0 and the device is no longer skipped,
whatever the collaborator outcomes of the next encryption call are. -/
theorem unresponded_threshold_skips_and_decryption_reset_restores
    (A : List TrustLevel) (r : RecipientDevice)
    (h : r.device.unrespondedSentStanzasCount = UNRESPONDED_STANZAS_UNTIL_ENCRYPTION_IS_STOPPED) :
    (processDevice A r = .skipped ∧
      encryptDeviceCounterUpdate r.device (processDevice A r) = r.device) ∧
    ∀ (sce : SceEnvelopeRead) (senderJid recipientJid : String)
      (isMessageStanza isGroupChatMessage : Bool) (result : DecryptionResult)
      (updatedDevice : Device) (heartbeat : Bool),
      decryptStanza (some sce) senderJid recipientJid isMessageStanza isGroupChatMessage
          r.device = (some result, updatedDevice, heartbeat) →
      updatedDevice.unrespondedSentStanzasCount = 0 ∧
      ∀ env2 : DeviceProcessingEnv,
        processDevice A { r with device := updatedDevice, env := env2 } ≠ .skipped := by
  have hskip : processDevice A r = .skipped := by
    unfold processDevice
    rw [if_pos h]
  refine ⟨⟨hskip, by rw [hskip]; rfl⟩, ?_⟩
  intro sce senderJid recipientJid isMsg isGc result updatedDevice heartbeat hdec
  have h0 := decryptStanza_success_resets_sent_counter sce senderJid recipientJid isMsg isGc
    r.device result updatedDevice heartbeat hdec
  refine ⟨h0, fun env2 => processDevice_not_skipped A _ ?_⟩
  simp [h0, UNRESPONDED_STANZAS_UNTIL_ENCRYPTION_IS_STOPPED]

/-- Witness for C6 at concrete inputs: the device at the threshold is
skipped with its record unchanged, and after a successful decryption its
counter is zero and it is no longer skipped. -/
theorem unresponded_threshold_witness :
    (processDevice [TrustLevel.authenticated] skippedRecipientExample = .skipped ∧
      encryptDeviceCounterUpdate skippedRecipientExample.device
        (processDevice [TrustLevel.authenticated] skippedRecipientExample) =
        skippedRecipientExample.device) ∧
    ({ keyId := [1], session := [2], unrespondedSentStanzasCount := 0,
       unrespondedReceivedStanzasCount := 1 : Device }).unrespondedSentStanzasCount = 0 ∧
    processDevice [TrustLevel.authenticated]
      { skippedRecipientExample with
        device := { keyId := [1], session := [2], unrespondedSentStanzasCount := 0,
                    unrespondedReceivedStanzasCount := 1 },
        env := skippedRecipientExample.env } ≠ .skipped := by
  refine ⟨(unresponded_threshold_skips_and_decryption_reset_restores
      [TrustLevel.authenticated] skippedRecipientExample rfl).1, ?_⟩
  have h2 := (unresponded_threshold_skips_and_decryption_reset_restores
      [TrustLevel.authenticated] skippedRecipientExample rfl).2
    { sceFrom := "carol@example.org", sceTo := "alice@example.org", sceTimestamp := 5,
      contentElement := "content" }
    "carol@example.org" "alice@example.org" true false
    { sceContent := "content", e2eeMetadata := { sceTimestamp := 5, senderKey := [1] } }
    { keyId := [1], session := [2], unrespondedSentStanzasCount := 0,
      unrespondedReceivedStanzasCount := 1 }
    false (by decide)
  exact ⟨h2.1, h2.2 skippedRecipientExample.env⟩

/-- Bounds for the start id of a pre-key batch under the id-range invariant. -/
theorem wrappedPreKeyStartId_range (latestPreKeyId count : Nat)
    (h1 : 1 ≤ latestPreKeyId) (h2 : latestPreKeyId ≤ PRE_KEY_ID_MAX)
    (h3 : 1 ≤ count) (h4 : count ≤ PRE_KEY_ID_MAX) :
    1 ≤ wrappedPreKeyStartId latestPreKeyId count ∧
    wrappedPreKeyStartId latestPreKeyId count + count - 1 ≤ PRE_KEY_ID_MAX := by
  simp only [PRE_KEY_ID_MAX] at h2 h4
  simp only [wrappedPreKeyStartId, PRE_KEY_ID_MIN, PRE_KEY_ID_MAX, UINT32_MOD]
  have hmod : (latestPreKeyId + count) % 4294967296 = latestPreKeyId + count :=
    Nat.mod_eq_of_lt (by omega)
  have hmod1 : (latestPreKeyId + 1) % 4294967296 = latestPreKeyId + 1 :=
    Nat.mod_eq_of_lt (by omega)
  rw [hmod, hmod1]
  split_ifs <;> omega

/-- C7 amended: updatePreKeyPairs and updateSignedPreKeyPair keep every
generated key id within the allowed ranges, wrapping back to the minimum when
the next id would exceed the maximum, as claimed; but the claimed protection
of stored pool entries does not exist: the code never checks the pool before
assigning a wrapped id, and QHash insert overwrites the unconsumed pre-key
pair stored under it (see the counterexample). -/
theorem updatePreKeyPairs_id_range_discipline (latestPreKeyId count : Nat)
    (pool : List (Nat × Bytes)) (newKeyMaterial : Nat → Bytes)
    (h1 : PRE_KEY_ID_MIN ≤ latestPreKeyId) (h2 : latestPreKeyId ≤ PRE_KEY_ID_MAX)
    (h3 : 1 ≤ count) (h4 : count ≤ PRE_KEY_ID_MAX) :
    (∀ i ∈ (updatePreKeyPairs latestPreKeyId count pool newKeyMaterial).generatedIds,
      PRE_KEY_ID_MIN ≤ i ∧ i ≤ PRE_KEY_ID_MAX) ∧
    (PRE_KEY_ID_MAX < latestPreKeyId + count →
      wrappedPreKeyStartId latestPreKeyId count = PRE_KEY_ID_MIN) ∧
    (∀ latestSignedPreKeyId, SIGNED_PRE_KEY_ID_MIN ≤ latestSignedPreKeyId →
      latestSignedPreKeyId ≤ SIGNED_PRE_KEY_ID_MAX →
      SIGNED_PRE_KEY_ID_MIN ≤ updatedSignedPreKeyPairId latestSignedPreKeyId ∧
      updatedSignedPreKeyPairId latestSignedPreKeyId ≤ SIGNED_PRE_KEY_ID_MAX) := by
  have hmin : PRE_KEY_ID_MIN ≤ latestPreKeyId := h1
  have hrange := wrappedPreKeyStartId_range latestPreKeyId count h1 h2 h3 h4
  refine ⟨?_, ?_, ?_⟩
  · intro i hi
    simp only [updatePreKeyPairs, generatePreKeyIds, List.mem_map, List.mem_range] at hi
    obtain ⟨j, hj, rfl⟩ := hi
    simp only [PRE_KEY_ID_MIN, PRE_KEY_ID_MAX] at hrange ⊢
    omega
  · intro hwrap
    simp only [PRE_KEY_ID_MAX] at hwrap h2 h4
    simp only [wrappedPreKeyStartId, PRE_KEY_ID_MIN, PRE_KEY_ID_MAX, UINT32_MOD]
    have hmod : (latestPreKeyId + count) % 4294967296 = latestPreKeyId + count :=
      Nat.mod_eq_of_lt (by omega)
    rw [hmod, if_pos (by omega)]
  · intro s hs1 hs2
    simp only [SIGNED_PRE_KEY_ID_MIN, SIGNED_PRE_KEY_ID_MAX] at hs1 hs2
    simp only [updatedSignedPreKeyPairId, SIGNED_PRE_KEY_ID_MIN, SIGNED_PRE_KEY_ID_MAX,
      UINT32_MOD]
    have hmod : (s + 1) % 4294967296 = s + 1 := Nat.mod_eq_of_lt (by omega)
    rw [hmod]
    split_ifs <;> omega

/-- Witness for C7 at concrete inputs: the batch generated after the wrap at
the maximum id stays within the range, the wrap lands on the minimum id, and
the signed-pre-key id update stays within its range. -/
theorem updatePreKeyPairs_id_range_witness :
    (PRE_KEY_ID_MIN ≤ 1 ∧ 1 ≤ PRE_KEY_ID_MAX) ∧
    wrappedPreKeyStartId PRE_KEY_ID_MAX 1 = PRE_KEY_ID_MIN ∧
    (SIGNED_PRE_KEY_ID_MIN ≤ updatedSignedPreKeyPairId 2147483647 ∧
      updatedSignedPreKeyPairId 2147483647 ≤ SIGNED_PRE_KEY_ID_MAX) := by
  have h := updatePreKeyPairs_id_range_discipline PRE_KEY_ID_MAX 1 [] (fun _ => [])
    (by decide) (by decide) (by decide) (by decide)
  exact ⟨h.1 1 (by decide), h.2.1 (by decide), h.2.2 2147483647 (by decide) (by decide)⟩

end QXmppOmemo
